import Mathlib

/-!
# Verification of the atomic-destructor crate

Shallow embedding of `src/lib.rs` and `src/saturating.rs`.

The crate wraps a value `T` together with shared state (an `Arc<AtomicBool>`
destroyed flag and an `Arc<AtomicUsize>` counter) plus a per-handle `stealth`
flag.  In the sequential embedding the shared state becomes an explicit
`SharedState` record threaded through the operations; a handle keeps only its
per-handle data (`stealth` flag and its own copy of the inner value).  The
compare-and-swap retry loops of `saturating.rs` always succeed on their first
iteration in a sequential execution, so each loop collapses to its single
successful pass.  Invocations of the user callback `on_destroy` are recorded as
`DestroyEvent`s; each event records the values observed at the moment the
callback runs (the counter before and after the decrement of the firing drop
and the destroyed flag at call time), which is pure instrumentation on top of
the code's control flow.
-/

/-- The maximum `usize` value on a 64-bit target (`usize::MAX`). -/
def usizeMax : Nat := 2 ^ 64 - 1

/-- `SaturatingUsize::saturating_increment` from `src/saturating.rs`.
Takes the current stored value; returns the new stored value and the value
the Rust function returns (sequentially the CAS succeeds at once, so both
components coincide). -/
def saturating_increment (current : Nat) : Nat × Nat :=
  if current = usizeMax then (current, current)
  else (current + 1, current + 1)

/-- `SaturatingUsize::saturating_decrement` from `src/saturating.rs`. -/
def saturating_decrement (current : Nat) : Nat × Nat :=
  if current = 0 then (current, current)
  else (current - 1, current - 1)

/-- The shared lifecycle state: the targets of the `Arc<AtomicBool>` and
`Arc<AtomicUsize>` fields `destroyed` and `counter` of `AtomicDestructor`. -/
structure SharedState where
  destroyed : Bool
  counter : Nat
deriving DecidableEq

/-- The per-handle data of `AtomicDestructor<T>`: the `stealth` flag and the
handle's own copy of the inner value (the `Arc` references to the shared state
are made explicit by threading a `SharedState` through the operations). -/
structure AtomicDestructor (α : Type) where
  stealth : Bool
  inner : α
deriving DecidableEq

/-- One invocation of the user callback `T::on_destroy`, instrumented with the
values observable at the moment of the call: the dropping handle's inner value
the callback is invoked on, the shared counter before the firing drop's
decrement, the counter when the callback runs (after the decrement), and the
destroyed flag when the callback runs. -/
structure DestroyEvent (α : Type) where
  inner : α
  preCounter : Nat
  counterAtCall : Nat
  destroyedAtCall : Bool
deriving DecidableEq

/-- `AtomicDestructor::new` (lib.rs 175-182): fresh shared state with
`destroyed = false`, `counter = 1`, and a non-stealth handle. -/
def AtomicDestructor.new {α : Type} (inner : α) : AtomicDestructor α × SharedState :=
  (⟨false, inner⟩, ⟨false, 1⟩)

/-- `AtomicDestructor::is_stealth` (lib.rs 195-197). -/
def AtomicDestructor.is_stealth {α : Type} (h : AtomicDestructor α) : Bool :=
  h.stealth

/-- `AtomicDestructor::is_destroyed` (lib.rs 190-192): atomic load of the
shared destroyed flag. -/
def SharedState.is_destroyed (s : SharedState) : Bool :=
  s.destroyed

/-- `Clone::clone` for `AtomicDestructor<T>` (lib.rs 89-105): saturating
increment of the shared counter, then a new handle with `stealth = false` and
a clone of the inner value, referencing the same shared state (returned
updated here). -/
def AtomicDestructor.clone {α : Type} (h : AtomicDestructor α) (s : SharedState) :
    AtomicDestructor α × SharedState :=
  (⟨false, h.inner⟩, { s with counter := (saturating_increment s.counter).1 })

/-- `StealthClone::stealth_clone` for `AtomicDestructor<T>` (lib.rs 112-119):
no shared-state mutation, new handle with `stealth = true`. -/
def AtomicDestructor.stealth_clone {α : Type} (h : AtomicDestructor α) (s : SharedState) :
    AtomicDestructor α × SharedState :=
  (⟨true, h.inner⟩, s)

/-- `Drop::drop` for `AtomicDestructor<T>` (lib.rs 126-167).  Returns the
shared state after the drop and the list of callback invocations it performed
(in order).  In the source: stealth handles return early; if the destroyed
flag is set the drop does nothing; otherwise the counter is saturating
decremented and, if the returned value is 0, `on_destroy` is invoked on the
handle's inner value and then the destroyed flag is stored true. -/
def AtomicDestructor.drop {α : Type} (h : AtomicDestructor α) (s : SharedState) :
    SharedState × List (DestroyEvent α) :=
  if h.stealth then (s, [])
  else if s.destroyed then (s, [])
  else
    let decr := saturating_decrement s.counter
    let s1 : SharedState := { s with counter := decr.1 }
    if decr.2 = 0 then
      ({ s1 with destroyed := true },
        [⟨h.inner, s.counter, s1.counter, s1.destroyed⟩])
    else (s1, [])

/-- Dropping a list of handles in order against a shared state, collecting
the callback invocations. -/
def dropList {α : Type} (hs : List (AtomicDestructor α)) (s : SharedState) :
    SharedState × List (DestroyEvent α) :=
  match hs with
  | [] => (s, [])
  | h :: rest =>
    let r1 := AtomicDestructor.drop h s
    let r2 := dropList rest r1.1
    (r2.1, r1.2 ++ r2.2)

/-- One operation performed on some handle referencing a shared lifecycle
state: an ordinary clone of a handle, a stealth clone of a handle, or the
drop of a handle. -/
inductive Op (α : Type) where
  | cloneOp (src : AtomicDestructor α)
  | stealthCloneOp (src : AtomicDestructor α)
  | dropOp (h : AtomicDestructor α)

/-- Effect of one operation on the shared state, with the callback
invocations it performs. -/
def applyOp {α : Type} (s : SharedState) : Op α → SharedState × List (DestroyEvent α)
  | Op.cloneOp src => ((AtomicDestructor.clone src s).2, [])
  | Op.stealthCloneOp src => ((AtomicDestructor.stealth_clone src s).2, [])
  | Op.dropOp h => AtomicDestructor.drop h s

/-- Run a sequence of operations against a shared state, collecting all
callback invocations in order. -/
def run {α : Type} (s : SharedState) : List (Op α) → SharedState × List (DestroyEvent α)
  | [] => (s, [])
  | op :: ops =>
    let r1 := applyOp s op
    let r2 := run r1.1 ops
    (r2.1, r1.2 ++ r2.2)

/-- The shared state after constructing a fresh handle and making `n`
sequential ordinary clones (each clone of the previously produced handle);
first component is the last handle produced. -/
def cloneChain {α : Type} (a : α) : Nat → AtomicDestructor α × SharedState
  | 0 => AtomicDestructor.new a
  | n + 1 =>
    let p := cloneChain a n
    AtomicDestructor.clone p.1 p.2

/-! ## Helper lemmas -/

theorem drop_of_destroyed {α : Type} (h : AtomicDestructor α) (s : SharedState)
    (hd : s.destroyed = true) : AtomicDestructor.drop h s = (s, []) := by
  unfold AtomicDestructor.drop
  rw [hd]
  cases h.stealth <;> simp

theorem dropList_of_destroyed {α : Type} (hs : List (AtomicDestructor α)) (s : SharedState)
    (hd : s.destroyed = true) : dropList hs s = (s, []) := by
  induction hs with
  | nil => rfl
  | cons h rest ih =>
    simp [dropList, drop_of_destroyed h s hd, ih]

theorem drop_fire {α : Type} (h : AtomicDestructor α) (s : SharedState)
    (hst : h.stealth = false) (hd : s.destroyed = false) (hc : s.counter = 1) :
    AtomicDestructor.drop h s = (⟨true, 0⟩, [⟨h.inner, 1, 0, false⟩]) := by
  obtain ⟨sd, sc⟩ := s
  simp only at hd hc
  subst hd hc
  unfold AtomicDestructor.drop
  rw [hst]
  simp [saturating_decrement]

theorem drop_step {α : Type} (h : AtomicDestructor α) (s : SharedState)
    (hst : h.stealth = false) (hd : s.destroyed = false) (hc : 2 ≤ s.counter) :
    AtomicDestructor.drop h s = (⟨false, s.counter - 1⟩, []) := by
  obtain ⟨sd, sc⟩ := s
  simp only at hd hc ⊢
  subst hd
  unfold AtomicDestructor.drop
  rw [hst]
  simp only [Bool.false_eq_true, if_false, saturating_decrement]
  have h0 : ¬ sc = 0 := by omega
  have h1 : ¬ sc - 1 = 0 := by omega
  simp [h0, h1]

theorem dropList_fires {α : Type} (hs : List (AtomicDestructor α)) :
    ∀ s : SharedState, s.destroyed = false → 1 ≤ s.counter → s.counter ≤ hs.length →
    (∀ h ∈ hs, h.stealth = false) →
    (dropList hs s).1.destroyed = true ∧
    (dropList hs s).2.length = 1 ∧
    ∀ ev ∈ (dropList hs s).2,
      ev.preCounter = 1 ∧ ev.counterAtCall = 0 ∧ ev.destroyedAtCall = false := by
  induction hs with
  | nil =>
    intro s _ h1 h2 _
    simp at h2
    omega
  | cons h rest ih =>
    intro s hd h1 h2 hall
    have hsth : h.stealth = false := hall h (List.mem_cons_self h rest)
    have hall' : ∀ g ∈ rest, g.stealth = false := fun g hg => hall g (List.mem_cons_of_mem h hg)
    by_cases hc : s.counter = 1
    · have hdrop := drop_fire h s hsth hd hc
      have hrest := dropList_of_destroyed rest (⟨true, 0⟩ : SharedState) rfl
      simp [dropList, hdrop, hrest]
    · have hc2 : 2 ≤ s.counter := by omega
      have hdrop := drop_step h s hsth hd hc2
      have hlen : s.counter - 1 ≤ rest.length := by
        simp [List.length_cons] at h2
        omega
      have := ih (⟨false, s.counter - 1⟩ : SharedState) rfl (by simp; omega) (by simpa) hall'
      simp only [dropList, hdrop]
      simpa using this

theorem drop_of_stealth {α : Type} (h : AtomicDestructor α) (s : SharedState)
    (hst : h.stealth = true) : AtomicDestructor.drop h s = (s, []) := by
  unfold AtomicDestructor.drop
  rw [hst]
  simp

theorem run_of_destroyed {α : Type} (ops : List (Op α)) :
    ∀ s : SharedState, s.destroyed = true →
    (run s ops).1.destroyed = true ∧ (run s ops).2 = [] := by
  induction ops with
  | nil => intro s hd; exact ⟨hd, rfl⟩
  | cons op ops ih =>
    intro s hd
    cases op with
    | cloneOp src =>
      simp only [run, applyOp, AtomicDestructor.clone]
      have := ih ({ s with counter := (saturating_increment s.counter).1 }) (by simpa using hd)
      simpa using this
    | stealthCloneOp src =>
      simp only [run, applyOp, AtomicDestructor.stealth_clone]
      simpa using ih s hd
    | dropOp h =>
      simp only [run, applyOp, drop_of_destroyed h s hd]
      simpa using ih s hd

theorem run_good {α : Type} (ops : List (Op α)) :
    ∀ s : SharedState, s.destroyed = false → 1 ≤ s.counter →
    (run s ops).2.length ≤ 1 ∧
    ∀ ev ∈ (run s ops).2,
      ev.preCounter = 1 ∧ ev.counterAtCall = 0 ∧ ev.destroyedAtCall = false := by
  induction ops with
  | nil => intro s _ _; simp [run]
  | cons op ops ih =>
    intro s hd hc
    cases op with
    | cloneOp src =>
      simp only [run, applyOp, AtomicDestructor.clone]
      have hc' : 1 ≤ (saturating_increment s.counter).1 := by
        unfold saturating_increment
        split_ifs <;> omega
      have := ih ({ s with counter := (saturating_increment s.counter).1 })
        (by simpa using hd) (by simpa using hc')
      simpa using this
    | stealthCloneOp src =>
      simp only [run, applyOp, AtomicDestructor.stealth_clone]
      simpa using ih s hd hc
    | dropOp h =>
      cases hst : h.stealth with
      | true =>
        simp only [run, applyOp, drop_of_stealth h s hst]
        simpa using ih s hd hc
      | false =>
        by_cases h1 : s.counter = 1
        · simp only [run, applyOp, drop_fire h s hst hd h1]
          have hrest := run_of_destroyed ops (⟨true, 0⟩ : SharedState) rfl
          simp [hrest.2]
        · have h2 : 2 ≤ s.counter := by omega
          simp only [run, applyOp, drop_step h s hst hd h2]
          have := ih (⟨false, s.counter - 1⟩ : SharedState) rfl (by simp; omega)
          simpa using this

theorem cloneChain_state {α : Type} (a : α) (n : Nat) :
    (cloneChain a n).2 = ⟨false, min (n + 1) usizeMax⟩ := by
  induction n with
  | zero =>
    have : (1 : Nat) ≤ usizeMax := by norm_num [usizeMax]
    simp [cloneChain, AtomicDestructor.new]
    omega
  | succ n ih =>
    have hpos : (1 : Nat) ≤ usizeMax := by norm_num [usizeMax]
    simp only [cloneChain, AtomicDestructor.clone, ih, saturating_increment]
    by_cases hm : min (n + 1) usizeMax = usizeMax
    · simp [hm]
      omega
    · simp [hm]
      omega

/-! ## Claims -/

/-- C1: for every `N`, after constructing a fresh handle and making `N`
sequential ordinary (non-stealth) clones, dropping all `N + 1` handles
sequentially in any order (any list of `N + 1` non-stealth handles) invokes
the destroy callback exactly once, namely on the drop whose decrement brings
the shared counter from 1 to 0, and leaves the destroyed flag true. -/
theorem counting_correctness {α : Type} (a : α) (N : Nat)
    (hs : List (AtomicDestructor α)) (hlen : hs.length = N + 1)
    (hall : ∀ h ∈ hs, h.stealth = false) :
    (dropList hs (cloneChain a N).2).1.destroyed = true ∧
    (dropList hs (cloneChain a N).2).2.length = 1 ∧
    ∀ ev ∈ (dropList hs (cloneChain a N).2).2,
      ev.preCounter = 1 ∧ ev.counterAtCall = 0 ∧ ev.destroyedAtCall = false := by
  rw [cloneChain_state]
  refine dropList_fires hs ⟨false, min (N + 1) usizeMax⟩ rfl ?_ ?_ hall
  · have : (1 : Nat) ≤ usizeMax := by norm_num [usizeMax]
    simp only
    omega
  · have : min (N + 1) usizeMax ≤ N + 1 := min_le_left _ _
    simp only
    omega

/-- Witness for C1 at `N = 2` with three concrete non-stealth handles. -/
theorem counting_correctness_witness :
    (([⟨false, 0⟩, ⟨false, 0⟩, ⟨false, 0⟩] : List (AtomicDestructor Nat)).length = 2 + 1 ∧
      ∀ h ∈ ([⟨false, 0⟩, ⟨false, 0⟩, ⟨false, 0⟩] : List (AtomicDestructor Nat)),
        h.stealth = false) ∧
    ((dropList [⟨false, 0⟩, ⟨false, 0⟩, ⟨false, 0⟩] (cloneChain (0 : Nat) 2).2).1.destroyed = true ∧
      (dropList [⟨false, 0⟩, ⟨false, 0⟩, ⟨false, 0⟩] (cloneChain (0 : Nat) 2).2).2.length = 1 ∧
      ∀ ev ∈ (dropList [⟨false, 0⟩, ⟨false, 0⟩, ⟨false, 0⟩] (cloneChain (0 : Nat) 2).2).2,
        ev.preCounter = 1 ∧ ev.counterAtCall = 0 ∧ ev.destroyedAtCall = false) :=
  ⟨⟨by decide, by decide⟩,
    counting_correctness 0 2 [⟨false, 0⟩, ⟨false, 0⟩, ⟨false, 0⟩] (by decide) (by decide)⟩

/-- C2: starting from a freshly constructed shared lifecycle state, every
sequence of operations (ordinary clones, stealth clones, drops of arbitrary
handles) invokes the destroy callback at most once, and any invocation
happens at a decrement observing the counter transition from exactly 1 to
exactly 0 (never when the counter was already 0 before the decrement) while
the destroyed flag is still false. -/
theorem callback_at_most_once {α : Type} (a : α) (ops : List (Op α)) :
    (run (AtomicDestructor.new a).2 ops).2.length ≤ 1 ∧
    ∀ ev ∈ (run (AtomicDestructor.new a).2 ops).2,
      ev.preCounter = 1 ∧ ev.counterAtCall = 0 ∧ ev.destroyedAtCall = false :=
  run_good ops ⟨false, 1⟩ rfl (by norm_num)

/-- C3: `saturating_increment` is a no-op returning `usize::MAX` at
`usize::MAX` and otherwise stores and returns `v + 1`; `saturating_decrement`
is a no-op returning 0 at 0 and otherwise stores and returns `v - 1`; neither
wraps around (results stay within `[0, usize::MAX]`). -/
theorem saturating_spec (v : Nat) (hv : v ≤ usizeMax) :
    (v = usizeMax → saturating_increment v = (usizeMax, usizeMax)) ∧
    (v < usizeMax → saturating_increment v = (v + 1, v + 1)) ∧
    (v = 0 → saturating_decrement v = (0, 0)) ∧
    (v ≠ 0 → saturating_decrement v = (v - 1, v - 1)) ∧
    (saturating_increment v).1 ≤ usizeMax ∧ (saturating_decrement v).1 ≤ usizeMax := by
  unfold saturating_increment saturating_decrement
  refine ⟨?_, ?_, ?_, ?_, ?_, ?_⟩ <;> split_ifs <;> simp_all <;> omega

/-- Witness for C3 at `v = 5`. -/
theorem saturating_spec_witness :
    (5 : Nat) ≤ usizeMax ∧
    (((5 : Nat) = usizeMax → saturating_increment 5 = (usizeMax, usizeMax)) ∧
      ((5 : Nat) < usizeMax → saturating_increment 5 = (5 + 1, 5 + 1)) ∧
      ((5 : Nat) = 0 → saturating_decrement 5 = (0, 0)) ∧
      ((5 : Nat) ≠ 0 → saturating_decrement 5 = (5 - 1, 5 - 1)) ∧
      (saturating_increment 5).1 ≤ usizeMax ∧ (saturating_decrement 5).1 ≤ usizeMax) :=
  ⟨by norm_num [usizeMax], saturating_spec 5 (by norm_num [usizeMax])⟩

/-- C4: dropping a stealth handle changes neither the shared counter nor the
destroyed flag and never invokes the destroy callback, whatever the shared
state. -/
theorem stealth_drop_noop {α : Type} (h : AtomicDestructor α) (s : SharedState)
    (hst : h.is_stealth = true) :
    AtomicDestructor.drop h s = (s, []) :=
  drop_of_stealth h s hst

/-- Witness for C4: a stealth handle dropped against a destroyed state with
counter 7. -/
theorem stealth_drop_noop_witness :
    AtomicDestructor.is_stealth (⟨true, (0 : Nat)⟩ : AtomicDestructor Nat) = true ∧
    AtomicDestructor.drop (⟨true, (0 : Nat)⟩ : AtomicDestructor Nat) ⟨true, 7⟩ = (⟨true, 7⟩, []) :=
  ⟨rfl, stealth_drop_noop ⟨true, (0 : Nat)⟩ ⟨true, 7⟩ rfl⟩

/-- C5: ordinary clone of any handle (stealth or not) increments the shared
counter by one, saturating at `usize::MAX`, leaves the destroyed flag
unchanged, and produces a non-stealth handle carrying a copy of the inner
value; stealth-ness is never inherited through ordinary clone. -/
theorem clone_increments_nonstealth {α : Type} (h : AtomicDestructor α) (s : SharedState) :
    (AtomicDestructor.clone h s).1.stealth = false ∧
    (AtomicDestructor.clone h s).1.inner = h.inner ∧
    (AtomicDestructor.clone h s).2.counter =
      (if s.counter = usizeMax then usizeMax else s.counter + 1) ∧
    (AtomicDestructor.clone h s).2.destroyed = s.destroyed := by
  refine ⟨rfl, rfl, ?_, rfl⟩
  simp only [AtomicDestructor.clone, saturating_increment]
  split_ifs with hm <;> simp [hm]

/-- C6: stealth clone always succeeds, never mutates the shared state, and
produces a stealth handle carrying a copy of the inner value and referencing
the same shared state. -/
theorem stealth_clone_spec {α : Type} (h : AtomicDestructor α) (s : SharedState) :
    (AtomicDestructor.stealth_clone h s).1.stealth = true ∧
    (AtomicDestructor.stealth_clone h s).1.inner = h.inner ∧
    (AtomicDestructor.stealth_clone h s).2 = s :=
  ⟨rfl, rfl, rfl⟩

/-- Counterexample to C7 as stated: a non-stealth handle dropped while the
destroyed flag is already true does NOT decrement the counter (the drop
returns early), so the claim's parenthetical extension to
already-destroyed states fails at counter 5, destroyed = true. -/
theorem nonstealth_drop_cex :
    (⟨false, (0 : Nat)⟩ : AtomicDestructor Nat).stealth = false ∧
    (AtomicDestructor.drop (⟨false, (0 : Nat)⟩ : AtomicDestructor Nat) ⟨true, 5⟩).1.counter ≠
      (saturating_decrement 5).1 := by
  refine ⟨rfl, ?_⟩
  decide

/-- C7 amended: for every non-stealth handle dropped while the destroyed
flag is FALSE, the drop saturating-decrements the shared counter, and if the
decrement yields 0 it invokes the destroy callback (once) and sets the
destroyed flag; otherwise no callback fires and the flag stays false. -/
theorem nonstealth_drop_amended {α : Type} (h : AtomicDestructor α) (s : SharedState)
    (hst : h.stealth = false) (hd : s.destroyed = false) :
    (AtomicDestructor.drop h s).1.counter = (saturating_decrement s.counter).1 ∧
    ((saturating_decrement s.counter).2 = 0 →
      (AtomicDestructor.drop h s).2.length = 1 ∧
      (AtomicDestructor.drop h s).1.destroyed = true) ∧
    ((saturating_decrement s.counter).2 ≠ 0 →
      (AtomicDestructor.drop h s).2 = [] ∧
      (AtomicDestructor.drop h s).1.destroyed = false) := by
  obtain ⟨sd, sc⟩ := s
  simp only at hd
  subst hd
  unfold AtomicDestructor.drop
  rw [hst]
  by_cases hz : (saturating_decrement sc).2 = 0 <;> simp [hz]

/-- Witness for C7's amended claim at counter 1, destroyed = false. -/
theorem nonstealth_drop_amended_witness :
    ((⟨false, (0 : Nat)⟩ : AtomicDestructor Nat).stealth = false ∧
      (⟨false, 1⟩ : SharedState).destroyed = false) ∧
    ((AtomicDestructor.drop (⟨false, (0 : Nat)⟩ : AtomicDestructor Nat) ⟨false, 1⟩).1.counter =
        (saturating_decrement (⟨false, 1⟩ : SharedState).counter).1 ∧
      ((saturating_decrement (⟨false, 1⟩ : SharedState).counter).2 = 0 →
        (AtomicDestructor.drop (⟨false, (0 : Nat)⟩ : AtomicDestructor Nat) ⟨false, 1⟩).2.length = 1 ∧
        (AtomicDestructor.drop (⟨false, (0 : Nat)⟩ : AtomicDestructor Nat) ⟨false, 1⟩).1.destroyed =
          true) ∧
      ((saturating_decrement (⟨false, 1⟩ : SharedState).counter).2 ≠ 0 →
        (AtomicDestructor.drop (⟨false, (0 : Nat)⟩ : AtomicDestructor Nat) ⟨false, 1⟩).2 = [] ∧
        (AtomicDestructor.drop (⟨false, (0 : Nat)⟩ : AtomicDestructor Nat) ⟨false, 1⟩).1.destroyed =
          false)) :=
  ⟨⟨rfl, rfl⟩, nonstealth_drop_amended ⟨false, (0 : Nat)⟩ ⟨false, 1⟩ rfl rfl⟩

/-- C8: a non-stealth handle dropped while the destroyed flag is already
true is a no-op: no callback, counter and flag unchanged. -/
theorem drop_after_destroyed_noop {α : Type} (h : AtomicDestructor α) (s : SharedState)
    (hst : h.stealth = false) (hd : s.destroyed = true) :
    AtomicDestructor.drop h s = (s, []) :=
  drop_of_destroyed h s hd

/-- Witness for C8 at counter 3, destroyed = true. -/
theorem drop_after_destroyed_noop_witness :
    ((⟨false, (0 : Nat)⟩ : AtomicDestructor Nat).stealth = false ∧
      (⟨true, 3⟩ : SharedState).destroyed = true) ∧
    AtomicDestructor.drop (⟨false, (0 : Nat)⟩ : AtomicDestructor Nat) ⟨true, 3⟩ = (⟨true, 3⟩, []) :=
  ⟨⟨rfl, rfl⟩, drop_after_destroyed_noop ⟨false, (0 : Nat)⟩ ⟨true, 3⟩ rfl rfl⟩

/-- C9: on the non-stealth drop whose decrement yields 0, the destroy
callback is invoked on the dropping handle's own copy of the inner value while
the destroyed flag is still false (the event records the flag at call time),
and the flag is set to true afterwards. -/
theorem callback_before_flag {α : Type} (h : AtomicDestructor α) (s : SharedState)
    (hst : h.stealth = false) (hd : s.destroyed = false)
    (hz : (saturating_decrement s.counter).2 = 0) :
    (AtomicDestructor.drop h s).2 =
      [⟨h.inner, s.counter, (saturating_decrement s.counter).1, false⟩] ∧
    (AtomicDestructor.drop h s).1.destroyed = true := by
  obtain ⟨sd, sc⟩ := s
  simp only at hd hz
  subst hd
  unfold AtomicDestructor.drop
  rw [hst]
  simp [hz]

/-- Witness for C9: the last handle (inner value 42) dropped at counter 1. -/
theorem callback_before_flag_witness :
    ((⟨false, (42 : Nat)⟩ : AtomicDestructor Nat).stealth = false ∧
      (⟨false, 1⟩ : SharedState).destroyed = false ∧
      (saturating_decrement (⟨false, 1⟩ : SharedState).counter).2 = 0) ∧
    ((AtomicDestructor.drop (⟨false, (42 : Nat)⟩ : AtomicDestructor Nat) ⟨false, 1⟩).2 =
        [⟨42, (⟨false, 1⟩ : SharedState).counter,
          (saturating_decrement (⟨false, 1⟩ : SharedState).counter).1, false⟩] ∧
      (AtomicDestructor.drop (⟨false, (42 : Nat)⟩ : AtomicDestructor Nat) ⟨false, 1⟩).1.destroyed =
        true) :=
  ⟨⟨rfl, rfl, by decide⟩,
    callback_before_flag ⟨false, (42 : Nat)⟩ ⟨false, 1⟩ rfl rfl (by decide)⟩

/-- C10: neither ordinary clone nor stealth clone modifies the shared
destroyed flag (stealth clone changes nothing at all in the shared state);
both are total, and `is_destroyed` read through the resulting shared state
agrees with the flag before the operation, so a handle produced from an
already-destroyed state reports destroyed. -/
theorem clones_preserve_flag {α : Type} (h : AtomicDestructor α) (s : SharedState) :
    (AtomicDestructor.clone h s).2.destroyed = s.destroyed ∧
    (AtomicDestructor.stealth_clone h s).2 = s ∧
    SharedState.is_destroyed (AtomicDestructor.clone h s).2 = SharedState.is_destroyed s ∧
    SharedState.is_destroyed (AtomicDestructor.stealth_clone h s).2 = SharedState.is_destroyed s :=
  ⟨rfl, rfl, rfl, rfl⟩
